import Mathlib

/-!
Shallow embedding of ncabatoff/vmwareguest-exporter (src/main.go), a
Prometheus collector translating the vmguestlib guest-info API into
metric samples.

Modelling choices:
* The external vmguestlib session is opaque: a scrape's external inputs
  are the outcome of `Session.RefreshInfo` (an `Except Unit Bool`, where
  `Except.ok event` mirrors the Go `(event bool, err == nil)` result and
  `Except.error` a hard refresh error) and, for each entry of the metric
  table in order, the raw value its getter returned (`Option ℚ`, `none`
  for a getter error).  The `getu32`/`getu64` wrappers in the Go source
  only convert the machine integer to float64, so the raw value arrives
  here already as a number.
* float64 arithmetic (the unit multiplication and the int-to-float casts
  of the counters) is modelled exactly over ℚ.
* Sending on the `chan<- prometheus.Metric` channel becomes appending to
  the returned sample list; `os.Exit(1)` becomes the `exited` flag on the
  collect result (once set, nothing further is emitted or mutated, as in
  the Go code where the process dies there).
* A `prometheus.Desc` carries exactly the metric name here (the help
  string and empty label list add nothing the claims need); `descs` is
  built from the table exactly as the Go `init()` does.
-/

/-- Value type tag of an emitted metric, mirroring `prometheus.ValueType`
as used in main.go (only gauges and counters occur). -/
inductive ValueType : Type where
  | GaugeValue : ValueType
  | CounterValue : ValueType
deriving DecidableEq, Repr

/-- `const metric_name_pfx = "vmwareguest_"` (main.go line 15). -/
def metric_name_pfx : String := "vmwareguest_"

/-- `isGuestDesc`: the descriptor name of the guest-presence gauge. -/
def isGuestDesc : String := "vmwareguest_isguest"

/-- `collecterrsDesc`: the descriptor name of the collect-errors counter. -/
def collecterrsDesc : String := "vmwareguest_collecterrors"

/-- `eventsDesc`: the descriptor name of the events counter. -/
def eventsDesc : String := "vmwareguest_events"

/-- The `metric` struct of main.go.  The Go `getter getf64` field is a
reference into the external vmguestlib session, so it has no residue in
the embedding: the raw value a getter produced on a given scrape is an
input to `Collector.Collect`. -/
structure metric : Type where
  name : String
  desc : String
  multiplier : ℚ
  unit : String
  valueType : ValueType
deriving DecidableEq, Repr

/-- `func (m metric) Get(s *vmguestlib.Session) (float64, error)`:
on getter error propagate the error, otherwise multiply the raw value by
the unit multiplier.  `raw` is the outcome of `m.getter.Get(s)`. -/
def metric.Get (m : metric) (raw : Option ℚ) : Option ℚ :=
  match raw with
  | none => none
  | some val => some (val * m.multiplier)

/-- `func mbmetric(...) metric`: value given in MBs. -/
def mbmetric (name desc : String) : metric :=
  ⟨name, desc, 1024 * 1024, "bytes", ValueType.GaugeValue⟩

/-- `func mzmetric(...) metric`: value given in MHz. -/
def mzmetric (name desc : String) : metric :=
  ⟨name, desc, 1024 * 1024, "hertz", ValueType.GaugeValue⟩

/-- `func unmetric(...) metric`: value in some unspecified unit. -/
def unmetric (name desc : String) : metric :=
  ⟨name, desc, 1, "", ValueType.GaugeValue⟩

/-- `func msmetric(...) metric`: value given in milliseconds, exposed in
seconds as a counter. -/
def msmetric (name desc : String) : metric :=
  ⟨name, desc, 1 / 1000, "seconds", ValueType.CounterValue⟩

/-- `func (gm metric) prometheus_name() string` (main.go lines 206-212). -/
def metric.prometheus_name (gm : metric) : String :=
  let name := metric_name_pfx ++ gm.name
  if gm.unit ≠ "" then name ++ "_" ++ gm.unit else name

/-- `var metrics = []metric{...}` (main.go lines 214-273), in table order.
The getter references name which vmguestlib call backs each entry; only
the (name, desc, helper) triple is retained. -/
def metrics : List metric := [
  mbmetric "HostMemUnmapped" "total amount of unmapped memory on the host",
  mbmetric "HostMemMapped" "total amount of mapped memory on the host",
  mbmetric "HostMemKernOvhd" "total amount of host kernel memory overhead",
  mbmetric "HostMemPhysFree" "total amount of physical memory free on host",
  mbmetric "HostMemPhys" "total amount of memory available to the host OS kernel",
  mbmetric "HostMemUsed" "total amount of consumed memory on the host",
  mbmetric "HostMemShared" "total amount of COW (Copy-On-Write) memory on the host",
  mbmetric "HostMemSwapped" "total amount of memory swapped out on the host",
  msmetric "HostCPUUsed" "total CPU time used by host.",
  msmetric "CPUUsed" "time during which the virtual machine has been using the CPU.",
  mbmetric "MemTargetSize" "memory target Size",
  msmetric "CPUStolen" "time that the VM was runnable but not scheduled to run.",
  msmetric "TimeElapsed" "real time passed since the virtual machine started running on the current host system.",
  unmetric "HostNumCPUCores" "number of physical CPU cores on the host machine.",
  mbmetric "MemUsed" "estimated amount of physical host memory currently consumed for this virtual machine's physical memory.",
  mbmetric "MemSharedSaved" "estimated amount of physical memory on the host saved from copy-on-write (COW) shared guest physical memory.",
  mbmetric "MemShared" "physical memory associated with this virtual machine that is copy-on-write (COW) shared on the host.",
  mbmetric "MemSwapped" "memory associated with this virtual machine that has been swapped by the host system.",
  mbmetric "MemBallooned" "memory that has been reclaimed from this virtual machine via the VMware Memory Balloon mechanism.",
  mbmetric "MemOverhead" "overhead memory associated with this virtual machine consumed on the host system.",
  mbmetric "MemActive" "estimated amount of memory the virtual machine is actively using.",
  mbmetric "MemMapped" "mapped memory size of this virtual machine.",
  unmetric "MemShares" "number of memory shares allocated to the virtual machine.",
  mbmetric "MemLimit" "maximum amount of memory that is available to the virtual machine.",
  mbmetric "MemReservation" "minimum amount of memory that is available to the virtual machine.",
  mzmetric "HostProcessorSpeed" "host processor speed.",
  unmetric "CPUShares" "number of CPU shares allocated to the virtual machine.",
  mzmetric "CPULimit" "maximum processing power available to the virtual machine.",
  mzmetric "CPUReservation" "minimum processing power available to the virtual machine."]

/-- The `init()` function of main.go: `descs[i]` is a Desc built from
`metrics[i].prometheus_name()`. -/
def descs : List String := metrics.map metric.prometheus_name

/-- The `Collector` struct: session handle (present or nil), cumulative
error counter, cumulative event counter. -/
structure Collector : Type where
  hasSession : Bool
  errors : ℕ
  events : ℕ
deriving DecidableEq, Repr

/-- One metric sample sent on the channel: descriptor name, value type,
float64 value (`prometheus.MustNewConstMetric(desc, vt, value)`). -/
structure Sample : Type where
  descName : String
  valueType : ValueType
  value : ℚ
deriving DecidableEq, Repr

/-- Outcome of one `Collect` call: the samples sent on the channel in
order, the collector state afterwards, and whether `os.Exit(1)` ran. -/
structure CollectResult : Type where
  samples : List Sample
  state : Collector
  exited : Bool
deriving DecidableEq, Repr

/-- The metric-table loop of `Collect` (main.go lines 113-121) over the
table entries paired with the raw value each getter returned: a getter
error increments the error count and emits nothing, a success emits the
converted value under the entry's Desc. -/
def collectTable : List (metric × Option ℚ) → List Sample × ℕ
  | [] => ([], 0)
  | (m, raw) :: rest =>
    match m.Get raw with
    | none =>
      let r := collectTable rest
      (r.1, r.2 + 1)
    | some val =>
      let r := collectTable rest
      (⟨m.prometheus_name, m.valueType, val⟩ :: r.1, r.2)

/-- `func (c *Collector) Collect(ch chan<- prometheus.Metric)` (main.go
lines 91-129).  `refreshInfo` is the outcome of `c.session.RefreshInfo()`
and `raws` the raw values of the table getters on this scrape, in table
order (both unused when no session exists, since the Go code returns
before reaching them). -/
def Collector.Collect (c : Collector) (refreshInfo : Except Unit Bool)
    (raws : List (Option ℚ)) : CollectResult :=
  let isguest : ℕ := if c.hasSession then 1 else 0
  let presence : Sample := ⟨isGuestDesc, ValueType.GaugeValue, (isguest : ℚ)⟩
  if c.hasSession = false then
    { samples := [presence], state := c, exited := false }
  else
    match refreshInfo with
    | Except.error _ =>
      { samples := [presence], state := c, exited := true }
    | Except.ok event =>
      let c1 := if event then { c with events := c.events + 1 } else c
      let r := collectTable (metrics.zip raws)
      let c2 := { c1 with errors := c1.errors + r.2 }
      { samples := presence :: r.1 ++
          [⟨eventsDesc, ValueType.CounterValue, (c2.events : ℚ)⟩,
           ⟨collecterrsDesc, ValueType.CounterValue, (c2.errors : ℚ)⟩],
        state := c2,
        exited := false }

/-- `func (c *Collector) Describe(ch chan<- *prometheus.Desc)` (main.go
lines 132-143).  The Go method mutates nothing; returning the collector
alongside the identifiers makes that explicit. -/
def Collector.Describe (c : Collector) : List String × Collector :=
  if c.hasSession = false then
    ([isGuestDesc], c)
  else
    (isGuestDesc :: descs ++ [eventsDesc, collecterrsDesc], c)

/-- A process lifetime: successive `Collect` calls on one collector, each
with its scrape's external inputs; the run stops when a scrape exits the
process. -/
def runScrapes (c : Collector) :
    List (Except Unit Bool × List (Option ℚ)) → Collector
  | [] => c
  | (r, raws) :: rest =>
    let res := c.Collect r raws
    if res.exited then res.state else runScrapes res.state rest

/-! ### Helper lemmas about the table loop -/

/-- `metric.Get` fails exactly when the raw getter failed. -/
lemma metric.Get_isNone (m : metric) (raw : Option ℚ) :
    (m.Get raw).isNone = raw.isNone := by
  cases raw <;> simp [metric.Get]

/-- The error count of the table loop is the number of failing getters. -/
lemma collectTable_snd (l : List (metric × Option ℚ)) :
    (collectTable l).2 = l.countP (fun p => (p.2).isNone) := by
  induction l with
  | nil => simp [collectTable]
  | cons p rest ih =>
    obtain ⟨m, raw⟩ := p
    cases raw <;> simp [collectTable, metric.Get, List.countP_cons, ih]

/-- The table loop emits one sample per succeeding getter. -/
lemma collectTable_fst_length (l : List (metric × Option ℚ)) :
    (collectTable l).1.length = l.countP (fun p => (p.2).isSome) := by
  induction l with
  | nil => simp [collectTable]
  | cons p rest ih =>
    obtain ⟨m, raw⟩ := p
    cases raw <;> simp [collectTable, metric.Get, List.countP_cons, ih]

/-- Every sample of the table loop comes from an entry whose getter
succeeded and carries that entry's descriptor name. -/
lemma collectTable_mem (l : List (metric × Option ℚ)) (s : Sample) :
    s ∈ (collectTable l).1 →
    ∃ p, p ∈ l ∧ (p.2).isSome = true ∧ s.descName = p.1.prometheus_name := by
  induction l with
  | nil => simp [collectTable]
  | cons p rest ih =>
    obtain ⟨m, raw⟩ := p
    cases raw with
    | none =>
      intro hs
      obtain ⟨q, hq, hqs, hqn⟩ := ih (by simpa [collectTable, metric.Get] using hs)
      exact ⟨q, List.mem_cons_of_mem _ hq, hqs, hqn⟩
    | some v =>
      intro hs
      rcases (by simpa [collectTable, metric.Get] using hs :
          s = ⟨m.prometheus_name, m.valueType, v * m.multiplier⟩ ∨
          s ∈ (collectTable rest).1) with h | h
      · exact ⟨(m, some v), List.mem_cons_self _ _, rfl, by simp [h]⟩
      · obtain ⟨q, hq, hqs, hqn⟩ := ih h
        exact ⟨q, List.mem_cons_of_mem _ hq, hqs, hqn⟩

/-- Counting a property of the raw values through the zip with the metric
table, when the lengths agree. -/
lemma zip_countP_snd (f : Option ℚ → Bool) :
    ∀ (l1 : List metric) (l2 : List (Option ℚ)), l2.length = l1.length →
    (l1.zip l2).countP (fun p => f p.2) = l2.countP f := by
  intro l1
  induction l1 with
  | nil =>
    intro l2 h
    cases l2 with
    | nil => simp
    | cons r rs => simp at h
  | cons m rest ih =>
    intro l2 h
    cases l2 with
    | nil => simp at h
    | cons r rs =>
      simp only [List.zip_cons_cons, List.countP_cons, ih rs (by simpa using h)]

/-- A member of a zip sits at one common index of both lists. -/
lemma mem_zip_index :
    ∀ (l1 : List metric) (l2 : List (Option ℚ)) (p : metric × Option ℚ),
    p ∈ l1.zip l2 → ∃ i, l1.get? i = some p.1 ∧ l2.get? i = some p.2 := by
  intro l1
  induction l1 with
  | nil => intro l2 p h; simp at h
  | cons m rest ih =>
    intro l2 p h
    cases l2 with
    | nil => simp at h
    | cons r rs =>
      rcases (by simpa using h : p = (m, r) ∨ p ∈ rest.zip rs) with h | h
      · exact ⟨0, by simp [h]⟩
      · obtain ⟨i, h1, h2⟩ := ih rs p h
        exact ⟨i + 1, by simpa using h1, by simpa using h2⟩

/-- Successes and failures partition the raw values. -/
lemma countP_isSome_add_isNone (l : List (Option ℚ)) :
    l.countP (fun r => r.isSome) + l.countP (fun r => r.isNone) = l.length := by
  induction l with
  | nil => simp
  | cons r rs ih => cases r <;> simp [List.countP_cons, ih] <;> omega

/-- The 29 table-derived descriptor names are pairwise distinct. -/
lemma descs_nodup : descs.Nodup := by decide

/-- None of the three fixed descriptor names collides with a table name. -/
lemma fixed_not_in_descs :
    isGuestDesc ∉ descs ∧ eventsDesc ∉ descs ∧ collecterrsDesc ∉ descs := by
  decide

/-- Closed form of `Collect` when a session exists and the refresh
succeeds. -/
lemma collect_ok_eq (c : Collector) (e : Bool) (raws : List (Option ℚ))
    (hs : c.hasSession = true) :
    c.Collect (Except.ok e) raws =
      ⟨⟨isGuestDesc, ValueType.GaugeValue, 1⟩ ::
          (collectTable (metrics.zip raws)).1 ++
          [⟨eventsDesc, ValueType.CounterValue,
              ((if e then c.events + 1 else c.events : ℕ) : ℚ)⟩,
           ⟨collecterrsDesc, ValueType.CounterValue,
              ((c.errors + (collectTable (metrics.zip raws)).2 : ℕ) : ℚ)⟩],
        ⟨c.hasSession, c.errors + (collectTable (metrics.zip raws)).2,
          if e then c.events + 1 else c.events⟩,
        false⟩ := by
  cases e <;> simp [Collector.Collect, hs]

/-! ### Claim theorems -/

/-- C1: a scrape on a collector without a session emits exactly one
sample, the guest-presence gauge with value 0, emits no table-derived and
no counter samples, leaves the collector state unchanged and does not
exit the process. -/
theorem collect_no_session (c : Collector) (r : Except Unit Bool)
    (raws : List (Option ℚ)) (h : c.hasSession = false) :
    (c.Collect r raws).samples = [⟨isGuestDesc, ValueType.GaugeValue, 0⟩] ∧
    (c.Collect r raws).state = c ∧ (c.Collect r raws).exited = false := by
  simp [Collector.Collect, h]

/-- Witness for C1 at a concrete sessionless collector. -/
theorem collect_no_session_witness :
    (Collector.Collect ⟨false, 0, 0⟩ (Except.ok false) []).samples =
      [⟨isGuestDesc, ValueType.GaugeValue, 0⟩] ∧
    (Collector.Collect ⟨false, 0, 0⟩ (Except.ok false) []).state = ⟨false, 0, 0⟩ ∧
    (Collector.Collect ⟨false, 0, 0⟩ (Except.ok false) []).exited = false :=
  collect_no_session ⟨false, 0, 0⟩ (Except.ok false) [] rfl

/-- C6: a hard refresh error on a collector with a session terminates the
process; that scrape has emitted only the guest-presence gauge (value 1),
no table-derived and no counter samples, and the counters are untouched. -/
theorem collect_refresh_error_exits (c : Collector) (raws : List (Option ℚ))
    (h : c.hasSession = true) :
    (c.Collect (Except.error ()) raws).exited = true ∧
    (c.Collect (Except.error ()) raws).samples =
      [⟨isGuestDesc, ValueType.GaugeValue, 1⟩] ∧
    (c.Collect (Except.error ()) raws).state = c := by
  simp [Collector.Collect, h]

/-- Witness for C6 at a concrete collector with a session. -/
theorem collect_refresh_error_exits_witness :
    (Collector.Collect ⟨true, 4, 7⟩ (Except.error ()) []).exited = true ∧
    (Collector.Collect ⟨true, 4, 7⟩ (Except.error ()) []).samples =
      [⟨isGuestDesc, ValueType.GaugeValue, 1⟩] ∧
    (Collector.Collect ⟨true, 4, 7⟩ (Except.error ()) []).state = ⟨true, 4, 7⟩ :=
  collect_refresh_error_exits ⟨true, 4, 7⟩ [] rfl

/-- C4: the emitted measurement is the raw getter value times the
descriptor's unit multiplier; in particular a raw 2048 through the
megabyte helper gives 2048 * 1048576 and through the millisecond-counter
helper gives 2048 * 0.001. -/
theorem metric_Get_unit_conversion (m : metric) (v : ℚ) (n d : String) :
    m.Get (some v) = some (v * m.multiplier) ∧
    (mbmetric n d).Get (some 2048) = some (2048 * 1048576) ∧
    (msmetric n d).Get (some 2048) = some (2048 * (1 / 1000)) := by
  refine ⟨rfl, ?_, ?_⟩
  · norm_num [metric.Get, mbmetric]
  · norm_num [metric.Get, msmetric]

/-- C9: each table descriptor's exported name is the namespace
concatenated with the base name and, exactly when non-empty, an
underscore and the unit suffix; the table yields the 29 names listed, and
the three fixed metrics carry their literal names. -/
theorem metric_names :
    metrics.map metric.prometheus_name = [
      "vmwareguest_HostMemUnmapped_bytes", "vmwareguest_HostMemMapped_bytes",
      "vmwareguest_HostMemKernOvhd_bytes", "vmwareguest_HostMemPhysFree_bytes",
      "vmwareguest_HostMemPhys_bytes", "vmwareguest_HostMemUsed_bytes",
      "vmwareguest_HostMemShared_bytes", "vmwareguest_HostMemSwapped_bytes",
      "vmwareguest_HostCPUUsed_seconds", "vmwareguest_CPUUsed_seconds",
      "vmwareguest_MemTargetSize_bytes", "vmwareguest_CPUStolen_seconds",
      "vmwareguest_TimeElapsed_seconds", "vmwareguest_HostNumCPUCores",
      "vmwareguest_MemUsed_bytes", "vmwareguest_MemSharedSaved_bytes",
      "vmwareguest_MemShared_bytes", "vmwareguest_MemSwapped_bytes",
      "vmwareguest_MemBallooned_bytes", "vmwareguest_MemOverhead_bytes",
      "vmwareguest_MemActive_bytes", "vmwareguest_MemMapped_bytes",
      "vmwareguest_MemShares", "vmwareguest_MemLimit_bytes",
      "vmwareguest_MemReservation_bytes", "vmwareguest_HostProcessorSpeed_hertz",
      "vmwareguest_CPUShares", "vmwareguest_CPULimit_hertz",
      "vmwareguest_CPUReservation_hertz"] ∧
    isGuestDesc = "vmwareguest_isguest" ∧
    eventsDesc = "vmwareguest_events" ∧
    collecterrsDesc = "vmwareguest_collecterrors" ∧
    ∀ m : metric, m.prometheus_name =
      metric_name_pfx ++ m.name ++ (if m.unit = "" then "" else "_" ++ m.unit) := by
  refine ⟨by decide, rfl, rfl, rfl, ?_⟩
  intro m
  by_cases h : m.unit = ""
  · simp [metric.prometheus_name, h, String.append_empty]
  · simp [metric.prometheus_name, h, String.append_assoc]

/-- C5: Describe always yields the guest-presence identifier; it yields
every table-derived identifier plus the events and errors identifiers
precisely when a session exists; it leaves the collector untouched, and a
second call yields the same identifier list. -/
theorem describe_identifiers (c : Collector) :
    isGuestDesc ∈ (c.Describe).1 ∧
    (((∀ n ∈ descs, n ∈ (c.Describe).1) ∧ eventsDesc ∈ (c.Describe).1 ∧
        collecterrsDesc ∈ (c.Describe).1) ↔ c.hasSession = true) ∧
    (c.Describe).2 = c ∧
    ((c.Describe).2.Describe).1 = (c.Describe).1 := by
  cases hc : c.hasSession with
  | false =>
    refine ⟨by simp [Collector.Describe, hc], ?_,
      by simp [Collector.Describe, hc], by simp [Collector.Describe, hc]⟩
    constructor
    · rintro ⟨-, he, -⟩
      have hne : eventsDesc ≠ isGuestDesc := by decide
      simp [Collector.Describe, hc] at he
      exact absurd he hne
    · intro h
      simp at h
  | true =>
    refine ⟨by simp [Collector.Describe, hc], ?_,
      by simp [Collector.Describe, hc], by simp [Collector.Describe, hc]⟩
    constructor
    · intro _
      rfl
    · intro _
      refine ⟨?_, by simp [Collector.Describe, hc], by simp [Collector.Describe, hc]⟩
      intro n hn
      simp [Collector.Describe, hc, hn]

/-- C7: with a session and a successful refresh, the event counter grows
by 1 exactly when the refresh reported a state change; no other path
(sessionless scrape, fatal refresh, Describe) changes it. -/
theorem collect_events_increment (c c0 : Collector) (e : Bool)
    (r : Except Unit Bool) (raws raws0 : List (Option ℚ))
    (hs : c.hasSession = true) (h0 : c0.hasSession = false) :
    (c.Collect (Except.ok e) raws).state.events =
      c.events + (if e then 1 else 0) ∧
    (c0.Collect r raws0).state.events = c0.events ∧
    (c.Collect (Except.error ()) raws).state.events = c.events ∧
    ((c.Describe).2).events = c.events ∧
    ((c0.Describe).2).events = c0.events := by
  refine ⟨?_, ?_, ?_, ?_, ?_⟩
  · rw [collect_ok_eq c e raws hs]
    cases e <;> simp
  · simp [Collector.Collect, h0]
  · simp [Collector.Collect, hs]
  · simp [Collector.Describe, hs]
  · simp [Collector.Describe, h0]

/-- Witness for C7 at concrete collectors, with a state change reported. -/
theorem collect_events_increment_witness :
    (Collector.Collect ⟨true, 0, 5⟩ (Except.ok true)
        (List.replicate 29 (some (3:ℚ)))).state.events = 5 + (if true then 1 else 0) ∧
    (Collector.Collect ⟨false, 0, 9⟩ (Except.ok false) []).state.events = 9 :=
  ⟨(collect_events_increment ⟨true, 0, 5⟩ ⟨false, 0, 9⟩ true (Except.ok false)
      (List.replicate 29 (some (3:ℚ))) [] rfl rfl).1,
   (collect_events_increment ⟨true, 0, 5⟩ ⟨false, 0, 9⟩ true (Except.ok false)
      (List.replicate 29 (some (3:ℚ))) [] rfl rfl).2.1⟩

/-- One Collect call never decreases the error counter. -/
lemma collect_errors_le (c : Collector) (r : Except Unit Bool)
    (raws : List (Option ℚ)) : c.errors ≤ (c.Collect r raws).state.errors := by
  cases hc : c.hasSession with
  | false => simp [Collector.Collect, hc]
  | true =>
    cases r with
    | error u => simp [Collector.Collect, hc]
    | ok e =>
      rw [collect_ok_eq c e raws hc]
      exact Nat.le_add_right _ _

/-- One Collect call never decreases the event counter. -/
lemma collect_events_le (c : Collector) (r : Except Unit Bool)
    (raws : List (Option ℚ)) : c.events ≤ (c.Collect r raws).state.events := by
  cases hc : c.hasSession with
  | false => simp [Collector.Collect, hc]
  | true =>
    cases r with
    | error u => simp [Collector.Collect, hc]
    | ok e =>
      rw [collect_ok_eq c e raws hc]
      cases e <;> simp

/-- A run of scrapes never decreases the error counter. -/
lemma runScrapes_errors_le (c : Collector)
    (l : List (Except Unit Bool × List (Option ℚ))) :
    c.errors ≤ (runScrapes c l).errors := by
  induction l generalizing c with
  | nil => simp [runScrapes]
  | cons p rest ih =>
    obtain ⟨r, raws⟩ := p
    simp only [runScrapes]
    by_cases hx : (c.Collect r raws).exited = true
    · simpa [hx] using collect_errors_le c r raws
    · calc c.errors ≤ (c.Collect r raws).state.errors := collect_errors_le c r raws
        _ ≤ _ := by simpa [hx] using ih (c.Collect r raws).state

/-- A run of scrapes never decreases the event counter. -/
lemma runScrapes_events_le (c : Collector)
    (l : List (Except Unit Bool × List (Option ℚ))) :
    c.events ≤ (runScrapes c l).events := by
  induction l generalizing c with
  | nil => simp [runScrapes]
  | cons p rest ih =>
    obtain ⟨r, raws⟩ := p
    simp only [runScrapes]
    by_cases hx : (c.Collect r raws).exited = true
    · simpa [hx] using collect_events_le c r raws
    · calc c.events ≤ (c.Collect r raws).state.events := collect_events_le c r raws
        _ ≤ _ := by simpa [hx] using ih (c.Collect r raws).state

/-- C8: the error and event counters are monotonically non-decreasing,
over a single Collect call and over any sequence of scrapes within one
process lifetime. -/
theorem counters_monotone (c : Collector) (r : Except Unit Bool)
    (raws : List (Option ℚ))
    (l : List (Except Unit Bool × List (Option ℚ))) :
    c.errors ≤ (c.Collect r raws).state.errors ∧
    c.events ≤ (c.Collect r raws).state.events ∧
    c.errors ≤ (runScrapes c l).errors ∧
    c.events ≤ (runScrapes c l).events :=
  ⟨collect_errors_le c r raws, collect_events_le c r raws,
   runScrapes_errors_le c l, runScrapes_events_le c l⟩

/-- C2: with a session, a successful refresh and every getter
succeeding, a scrape emits table size + 3 samples and the error counter
is unchanged. -/
theorem collect_all_getters_ok (c : Collector) (e : Bool)
    (raws : List (Option ℚ)) (hs : c.hasSession = true)
    (hlen : raws.length = metrics.length)
    (hok : ∀ x ∈ raws, x.isSome = true) :
    (c.Collect (Except.ok e) raws).samples.length = metrics.length + 3 ∧
    (c.Collect (Except.ok e) raws).state.errors = c.errors := by
  have hnone : raws.countP (fun x => x.isNone) = 0 := by
    rw [List.countP_eq_zero]
    intro a ha
    have h := hok a ha
    cases a with
    | none => simp at h
    | some v => simp
  have hsome : raws.countP (fun x => x.isSome) = raws.length :=
    List.countP_eq_length.mpr hok
  have herr : (collectTable (metrics.zip raws)).2 = 0 := by
    rw [collectTable_snd, zip_countP_snd _ _ _ hlen, hnone]
  have hlen2 : (collectTable (metrics.zip raws)).1.length = metrics.length := by
    rw [collectTable_fst_length, zip_countP_snd _ _ _ hlen, hsome, hlen]
  rw [collect_ok_eq c e raws hs]
  constructor
  · simp [hlen2]
  · simp [herr]

/-- Witness for C2: a concrete scrape where all 29 getters succeed. -/
theorem collect_all_getters_ok_witness :
    (Collector.Collect ⟨true, 4, 0⟩ (Except.ok false)
        (List.replicate 29 (some (3:ℚ)))).samples.length = metrics.length + 3 ∧
    (Collector.Collect ⟨true, 4, 0⟩ (Except.ok false)
        (List.replicate 29 (some (3:ℚ)))).state.errors = 4 :=
  collect_all_getters_ok ⟨true, 4, 0⟩ false (List.replicate 29 (some (3:ℚ)))
    rfl (by decide) (by decide)

/-- C3: with a session, a successful refresh and exactly one failing
getter, a scrape increments the error counter by exactly one, emits the
guest-presence gauge with value 1 first, emits table size - 1
table-derived samples (so table size + 2 samples in all) and emits no
sample carrying the failing entry's descriptor name. -/
theorem collect_one_getter_fails (c : Collector) (e : Bool)
    (raws : List (Option ℚ)) (j : ℕ) (mj : metric)
    (hs : c.hasSession = true) (hlen : raws.length = metrics.length)
    (hone : raws.countP (fun x => x.isNone) = 1)
    (hj : raws.get? j = some none) (hmj : metrics.get? j = some mj) :
    (c.Collect (Except.ok e) raws).state.errors = c.errors + 1 ∧
    (c.Collect (Except.ok e) raws).samples.length = metrics.length + 2 ∧
    (c.Collect (Except.ok e) raws).samples.head? =
      some ⟨isGuestDesc, ValueType.GaugeValue, 1⟩ ∧
    ∀ s ∈ (c.Collect (Except.ok e) raws).samples,
      s.descName ≠ mj.prometheus_name := by
  have herr : (collectTable (metrics.zip raws)).2 = 1 := by
    rw [collectTable_snd, zip_countP_snd _ _ _ hlen, hone]
  have hsum := countP_isSome_add_isNone raws
  have hlen1 : (collectTable (metrics.zip raws)).1.length + 1 = metrics.length := by
    rw [collectTable_fst_length, zip_countP_snd _ _ _ hlen]
    have h1 : List.countP (fun x => x.isSome) raws + 1 = raws.length := by
      rw [← hone]
      exact hsum
    rw [hlen] at h1
    exact h1
  have hmem : mj ∈ metrics := List.get?_mem hmj
  have hmjd : mj.prometheus_name ∈ descs := by
    unfold descs
    exact List.mem_map_of_mem _ hmem
  have hjd : descs.get? j = some mj.prometheus_name := by
    unfold descs
    rw [List.get?_map, hmj]
    rfl
  rw [collect_ok_eq c e raws hs]
  refine ⟨by simp [herr], ?_, by simp, ?_⟩
  · simp only [List.length_cons, List.length_append]
    simp
    omega
  · intro s hsmem
    simp only [List.cons_append, List.mem_cons, List.mem_append,
      List.not_mem_nil, or_false] at hsmem
    rcases hsmem with h1 | h1 | h1 | h1
    · intro heq
      rw [h1] at heq
      have heq2 : isGuestDesc = mj.prometheus_name := heq
      exact fixed_not_in_descs.1 (by rw [heq2]; exact hmjd)
    · obtain ⟨p, hp, hpsome, hpname⟩ := collectTable_mem _ s h1
      intro heq
      obtain ⟨i, hi1, hi2⟩ := mem_zip_index metrics raws p hp
      have hid : descs.get? i = some mj.prometheus_name := by
        unfold descs
        rw [List.get?_map, hi1]
        simp [← heq, hpname]
      obtain ⟨hlt, -⟩ := List.get?_eq_some.mp hid
      have hij : i = j := List.get?_inj hlt descs_nodup (hid.trans hjd.symm)
      rw [hij, hj] at hi2
      have hp2 : p.2 = none := (Option.some_inj.mp hi2).symm
      rw [hp2] at hpsome
      simp at hpsome
    · intro heq
      rw [h1] at heq
      have heq2 : eventsDesc = mj.prometheus_name := heq
      exact fixed_not_in_descs.2.1 (by rw [heq2]; exact hmjd)
    · intro heq
      rw [h1] at heq
      have heq2 : collecterrsDesc = mj.prometheus_name := heq
      exact fixed_not_in_descs.2.2 (by rw [heq2]; exact hmjd)

/-- Witness for C3: a concrete scrape where only the first getter
(host-memory-unmapped) fails. -/
theorem collect_one_getter_fails_witness :
    (Collector.Collect ⟨true, 0, 0⟩ (Except.ok false)
        (none :: List.replicate 28 (some (5:ℚ)))).state.errors = 0 + 1 ∧
    (Collector.Collect ⟨true, 0, 0⟩ (Except.ok false)
        (none :: List.replicate 28 (some (5:ℚ)))).samples.length =
      metrics.length + 2 :=
  ⟨(collect_one_getter_fails ⟨true, 0, 0⟩ false
      (none :: List.replicate 28 (some (5:ℚ))) 0
      (mbmetric "HostMemUnmapped" "total amount of unmapped memory on the host")
      rfl (by decide) (by decide) rfl rfl).1,
   (collect_one_getter_fails ⟨true, 0, 0⟩ false
      (none :: List.replicate 28 (some (5:ℚ))) 0
      (mbmetric "HostMemUnmapped" "total amount of unmapped memory on the host")
      rfl (by decide) (by decide) rfl rfl).2.1⟩

/-- C10: with a session and a successful refresh, the errors sample is
the last one emitted and the events sample the one before it, and both
carry the counter values as updated by the current scrape: this scrape's
getter failures and this scrape's refresh event are already included. -/
theorem counter_samples_include_current_scrape (c : Collector) (e : Bool)
    (raws : List (Option ℚ)) (hs : c.hasSession = true)
    (hlen : raws.length = metrics.length) :
    (c.Collect (Except.ok e) raws).samples.getLast? =
      some ⟨collecterrsDesc, ValueType.CounterValue,
        ((c.errors + raws.countP (fun x => x.isNone) : ℕ) : ℚ)⟩ ∧
    (c.Collect (Except.ok e) raws).samples.dropLast.getLast? =
      some ⟨eventsDesc, ValueType.CounterValue,
        ((c.events + (if e then 1 else 0) : ℕ) : ℚ)⟩ ∧
    (c.Collect (Except.ok e) raws).state.errors =
      c.errors + raws.countP (fun x => x.isNone) ∧
    (c.Collect (Except.ok e) raws).state.events =
      c.events + (if e then 1 else 0) := by
  have herr : (collectTable (metrics.zip raws)).2 =
      raws.countP (fun x => x.isNone) := by
    rw [collectTable_snd, zip_countP_snd _ _ _ hlen]
  have hlist : ∀ (t : List Sample) (x a b : Sample),
      x :: t ++ [a, b] = (x :: (t ++ [a])) ++ [b] := by
    intro t x a b
    simp
  rw [collect_ok_eq c e raws hs]
  refine ⟨?_, ?_, by simp [herr], by cases e <;> simp⟩
  · rw [hlist, List.getLast?_concat, herr]
  · rw [hlist, List.dropLast_concat]
    have : (⟨isGuestDesc, ValueType.GaugeValue, 1⟩ :
        Sample) :: ((collectTable (metrics.zip raws)).1 ++
        [⟨eventsDesc, ValueType.CounterValue,
          ((if e then c.events + 1 else c.events : ℕ) : ℚ)⟩]) =
        (⟨isGuestDesc, ValueType.GaugeValue, 1⟩ ::
          (collectTable (metrics.zip raws)).1) ++
        [⟨eventsDesc, ValueType.CounterValue,
          ((if e then c.events + 1 else c.events : ℕ) : ℚ)⟩] := by
      simp
    rw [this, List.getLast?_concat]
    cases e <;> simp

/-- Witness for C10: a concrete scrape with one getter failure and a
refresh event; the emitted counter samples already reflect both. -/
theorem counter_samples_include_current_scrape_witness :
    (Collector.Collect ⟨true, 1, 2⟩ (Except.ok true)
        (none :: List.replicate 28 (some (5:ℚ)))).samples.getLast? =
      some ⟨collecterrsDesc, ValueType.CounterValue,
        ((1 + (none :: List.replicate 28 (some (5:ℚ))).countP
          (fun x => x.isNone) : ℕ) : ℚ)⟩ :=
  (counter_samples_include_current_scrape ⟨true, 1, 2⟩ true
    (none :: List.replicate 28 (some (5:ℚ))) rfl (by decide)).1
